import Mathlib

/-!
Shallow embedding of the scraper core of the alumni-management repository
(`src/alumni_system/scraper/linkedin_scraper.py`, `src/alumni_system/scraper/job.py`,
`src/alumni_system/scraper/run.py`, `src/alumni_system/storage/b2_client.py`,
`src/alumni_system/storage/config.py`).

Strings are modelled as `List Char`; timestamps as `Int` (days); machine I/O
(browser navigation, database calls, blob uploads) is modelled by explicit
input parameters and effect lists.
-/

namespace AlumniSystem

instance {ε α : Type} [DecidableEq ε] [DecidableEq α] : DecidableEq (Except ε α) := fun x y =>
  match x, y with
  | .error a, .error b =>
    if h : a = b then isTrue (congrArg Except.error h)
    else isFalse fun hc => h (Except.error.inj hc)
  | .error _, .ok _ => isFalse fun hc => Except.noConfusion hc
  | .ok _, .error _ => isFalse fun hc => Except.noConfusion hc
  | .ok a, .ok b =>
    if h : a = b then isTrue (congrArg Except.ok h)
    else isFalse fun hc => h (Except.ok.inj hc)

/-! ### Character classes of Python `re` (ASCII range, as produced by the scraped text) -/

/-- Python regex `\w` on ASCII: letters, digits, underscore. -/
def isWordChar (c : Char) : Bool := c.isAlphanum || c == '_'

/-- Python regex `\s` on ASCII: space, tab, newline, carriage return, vertical tab, form feed. -/
def isSpaceChar (c : Char) : Bool :=
  c == ' ' || c == '\t' || c == '\n' || c == '\r' || c == '\x0b' || c == '\x0c'

/-- Python `str.lower()` on ASCII text. -/
def lowerStr (l : List Char) : List Char := l.map Char.toLower

/-- Python `str.strip()`: drop whitespace from both ends. -/
def pyStrip (l : List Char) : List Char :=
  ((l.dropWhile isSpaceChar).reverse.dropWhile isSpaceChar).reverse

/-! ### `_parse_dates` (linkedin_scraper.py lines 348-379)

The source applies `re.search(r'(\w+\s+\d{4})\s*[-–]\s*(\w+\s+\d{4}|Present)', text,
re.IGNORECASE)` and then `datetime.strptime(group, "%b %Y")` on each captured group.
In this pattern `\w` and `\s` are disjoint classes and `\d{4}` follows `\s+`, so greedy
matching without backtracking coincides with Python's backtracking semantics; the
search tries every start position from the left, like `re.search`. -/

/-- Lowercased month abbreviations, the alternatives of `strptime`'s `%b` in the C locale. -/
def monthAbbrevs : List (List Char) :=
  ["jan".data, "feb".data, "mar".data, "apr".data, "may".data, "jun".data,
   "jul".data, "aug".data, "sep".data, "oct".data, "nov".data, "dec".data]

def digitVal (c : Char) : Nat := c.toNat - '0'.toNat

/-- Match exactly four decimal digits at the head of the list. -/
def takeDigits4 : List Char → Option (List Char × List Char)
  | d1 :: d2 :: d3 :: d4 :: r =>
    if d1.isDigit && d2.isDigit && d3.isDigit && d4.isDigit then
      some ([d1, d2, d3, d4], r)
    else none
  | _ => none

/-- Match the regex fragment `\w+\s+\d{4}` at the head of the list, returning the
matched text and the remainder. `\w` and `\s` are disjoint, so the greedy spans
below are exactly Python's semantics for this fragment. -/
def matchWordSpYear (s : List Char) : Option (List Char × List Char) :=
  let p1 := s.span isWordChar
  if p1.1.isEmpty then none else
  let p2 := p1.2.span isSpaceChar
  if p2.1.isEmpty then none else
  match takeDigits4 p2.2 with
  | some (ds, r3) => some (p1.1 ++ p2.1 ++ ds, r3)
  | none => none

/-- Match the whole duration regex at the head of the list, returning the two
captured groups `(\w+\s+\d{4})` and `(\w+\s+\d{4}|Present)`; the `Present`
alternative is matched case-insensitively (`re.IGNORECASE`), the first
alternative is tried first, as in Python alternation. -/
def matchDurationAt (s : List Char) : Option (List Char × List Char) :=
  match matchWordSpYear s with
  | none => none
  | some (g1, r3) =>
    let r4 := (r3.span isSpaceChar).2
    match r4 with
    | dash :: r5 =>
      if dash == '-' || dash == '–' then
        let r6 := (r5.span isSpaceChar).2
        match matchWordSpYear r6 with
        | some (g2, _) => some (g1, g2)
        | none =>
          if lowerStr (r6.take 7) == "present".data then some (g1, r6.take 7)
          else none
      else none
    | [] => none

/-- `re.search`: try the pattern at each start position, leftmost first. -/
def durationSearch : List Char → Option (List Char × List Char)
  | [] => none
  | c :: rest =>
    match matchDurationAt (c :: rest) with
    | some g => some g
    | none => durationSearch rest

/-- `datetime.strptime(s, "%b %Y")`, returning `(year, month)`: a three-letter
month abbreviation (matched case-insensitively), whitespace, exactly four digits,
and nothing else (strptime requires the whole string to match). -/
def strptimeBY (s : List Char) : Option (Nat × Nat) :=
  match lowerStr s with
  | m1 :: m2 :: m3 :: rest =>
    match monthAbbrevs.findIdx? (fun m => m == [m1, m2, m3]) with
    | none => none
    | some idx =>
      let p := rest.span isSpaceChar
      if p.1.isEmpty then none
      else match p.2 with
        | [d1, d2, d3, d4] =>
          if d1.isDigit && d2.isDigit && d3.isDigit && d4.isDigit then
            some (1000 * digitVal d1 + 100 * digitVal d2 + 10 * digitVal d3 + digitVal d4,
                  idx + 1)
          else none
        | _ => none
  | _ => none

/-- Result dictionary of `_parse_dates`: each field models the presence of the
corresponding key in the returned dict (`none` = key absent). Dates are `(year, month)`. -/
structure ParsedDates where
  start_date : Option (Nat × Nat) := none
  end_date : Option (Nat × Nat) := none
  is_current : Option Bool := none
deriving DecidableEq

/-- `_parse_dates` (linkedin_scraper.py lines 348-379): search for the duration
pattern; on a match, parse group 1 as the start date (a `ValueError` is swallowed),
then either set `is_current` (when group 2 is "present", case-insensitively) or
parse group 2 as the end date. No input raises: every fallible step has a handler. -/
def parse_dates (duration_text : List Char) : ParsedDates :=
  match durationSearch duration_text with
  | none => {}
  | some (startStr, endStr) =>
    let sd := strptimeBY startStr
    if lowerStr endStr == "present".data then
      { start_date := sd, end_date := none, is_current := some true }
    else
      { start_date := sd, end_date := strptimeBY endStr, is_current := none }

/-! ### Headline parsing (`_extract_basic_info`, linkedin_scraper.py lines 202-209) -/

/-- Python `pat in s` substring test. -/
def containsSub : List Char → List Char → Bool
  | [], pat => pat.isEmpty
  | c :: rest, pat => pat.isPrefixOf (c :: rest) || containsSub rest pat

/-- Python `s.split(pat, 1)`: split at the first occurrence of `pat`, returning
the parts before and after it, or `none` when `pat` does not occur (in which
case Python returns the one-element list `[s]`). -/
def splitOnFirst : List Char → List Char → Option (List Char × List Char)
  | [], _ => none
  | c :: rest, pat =>
    if pat.isPrefixOf (c :: rest) then some ([], (c :: rest).drop pat.length)
    else
      match splitOnFirst rest pat with
      | some (pre, post) => some (c :: pre, post)
      | none => none

def atSep : List Char := " at ".data

/-- Headline parsing in `_extract_basic_info` (lines 202-209): if the lowercased
headline contains " at ", split the original headline at the first literal " at ";
when that yields two parts, they become `(current_designation, current_company)`
after stripping. Otherwise both keys stay unset (`none`). -/
def parseHeadline (headline : List Char) : Option (List Char × List Char) :=
  if containsSub (lowerStr headline) atSep then
    match splitOnFirst headline atSep with
    | some (p0, p1) => some (pyStrip p0, pyStrip p1)
    | none => none
  else none

/-! ### Login (`LinkedInScraper.login`, linkedin_scraper.py lines 91-131) -/

/-- Caller-visible result of `login`: the Python method returns `True` or `False`,
or raises `ValueError` before the `try` block when credentials are missing. -/
inductive LoginOutcome
  | retTrue
  | retFalse
  | configError
deriving DecidableEq

/-- What the navigation part of the `try` block does: raise, or settle on a URL. -/
inductive NavResult
  | raises (msg : String)
  | lands (url : String)

/-- `login` (lines 91-131), returning the caller-visible outcome and the list of
printed messages. If already logged in, return `True`. Missing credentials raise
`ValueError` (before the `try`). Inside the `try`: a URL containing "feed" or
"mynetwork" means success; a URL containing "checkpoint" raises
`Exception("LinkedIn security verification required")` at line 125, which the
method's own `except` at line 129 catches, prints, and converts to `False`;
any other URL returns `False`; an exception from navigation is likewise caught,
printed, and converted to `False`. -/
def login (already emailSet passwordSet : Bool) (nav : NavResult) :
    LoginOutcome × List String :=
  if already then (.retTrue, [])
  else if !emailSet || !passwordSet then (.configError, [])
  else match nav with
    | .raises msg => (.retFalse, ["Login failed: " ++ msg])
    | .lands url =>
      if containsSub url.data "feed".data || containsSub url.data "mynetwork".data then
        (.retTrue, [])
      else if containsSub url.data "checkpoint".data then
        (.retFalse, ["Login failed: LinkedIn security verification required"])
      else (.retFalse, [])

/-! ### Profile data and the per-scrape retry loop (`scrape_profile`, lines 133-179) -/

/-- A `job_data` dictionary produced by `_extract_experience` (`none` = key absent). -/
structure JobData where
  company_name : Option String := none
  designation : Option String := none
  location : Option String := none
  start_date : Option (Nat × Nat) := none
  end_date : Option (Nat × Nat) := none
  is_current : Option Bool := none
deriving DecidableEq

/-- An `edu_data` dictionary produced by `_extract_education`. -/
structure EduData where
  institution_name : Option String := none
  degree : Option String := none
  field_of_study : Option String := none
  start_year : Option Nat := none
  end_year : Option Nat := none
deriving DecidableEq

/-- The `profile_data` dictionary assembled by `scrape_profile` and consumed by
`_update_alumni_from_profile` (`none` = key absent). -/
structure ProfileData where
  name : Option String := none
  current_company : Option String := none
  current_designation : Option String := none
  location : Option String := none
  email : Option String := none
  job_history : Option (List JobData) := none
  education_history : Option (List EduData) := none
deriving DecidableEq

/-- One iteration of the retry loop in `scrape_profile`: the body either raises
(anything from navigation/extraction) or produces a profile dictionary. -/
inductive TryOutcome
  | throws (msg : String)
  | yields (pd : ProfileData)

/-- The loop `for attempt in range(MAX_RETRIES)` of `scrape_profile` (lines 147-179):
each iteration's body either returns the profile data or has its exception caught
(printed, delay, `continue`); falling off the loop returns `None`. `i` is the
iteration index, the last argument the number of iterations left. -/
def scrapeLoop (attempts : Nat → TryOutcome) : Nat → Nat → Option ProfileData
  | _, 0 => none
  | i, k + 1 =>
    match attempts i with
    | .yields pd => some pd
    | .throws _ => scrapeLoop attempts (i + 1) k

/-- `scrape_profile`'s retry loop with `retries = MAX_RETRIES`. -/
def scrape_profile (retries : Nat) (attempts : Nat → TryOutcome) : Option ProfileData :=
  scrapeLoop attempts 0 retries

/-- Default of the `SCRAPER_MAX_RETRIES` environment variable (scraper/config.py line 30). -/
def MAX_RETRIES : Nat := 3

/-! ### Database rows and `_update_alumni_from_profile` (job.py lines 148-216) -/

/-- A `JobHistory` row as created by `create_job_history` from a `job_data` dict,
with the defaults applied at job.py lines 188-197. -/
structure JobRow where
  alumni_id : Nat
  company_name : String
  designation : Option String
  location : Option String
  start_date : Option (Nat × Nat)
  end_date : Option (Nat × Nat)
  is_current : Bool
deriving DecidableEq

def mkJobRow (aid : Nat) (d : JobData) : JobRow :=
  { alumni_id := aid
    company_name := d.company_name.getD "Unknown"
    designation := d.designation
    location := d.location
    start_date := d.start_date
    end_date := d.end_date
    is_current := d.is_current.getD false }

/-- An `EducationHistory` row as created by `create_education_history`
(job.py lines 208-216). -/
structure EduRow where
  alumni_id : Nat
  institution_name : String
  degree : Option String
  field_of_study : Option String
  start_year : Option Nat
  end_year : Option Nat
deriving DecidableEq

def mkEduRow (aid : Nat) (d : EduData) : EduRow :=
  { alumni_id := aid
    institution_name := d.institution_name.getD "Unknown"
    degree := d.degree
    field_of_study := d.field_of_study
    start_year := d.start_year
    end_year := d.end_year }

/-- An `Alumni` record (database/models.py) restricted to the fields the job reads
and writes; `last_scraped_at` is a day-granularity timestamp. -/
structure Alumni where
  id : Nat
  linkedin_url : Option String := none
  linkedin_id : Option String := none
  roll_number : String := ""
  last_scraped_at : Option Int := none
  name : String := ""
  current_company : Option String := none
  current_designation : Option String := none
  location : Option String := none
  corporate_email : Option String := none
  job_history : List JobRow := []
  education_history : List EduRow := []
deriving DecidableEq

/-- `_update_alumni_from_profile` (job.py lines 148-216): scalar fields are updated
only for keys present in `profile_data`; `last_scraped_at` is stamped; the job
history is deleted and re-created only when the `job_history` key is present AND
the list is truthy (non-empty) — same for education history. -/
def update_alumni_from_profile (now : Int) (a : Alumni) (pd : ProfileData) : Alumni :=
  { a with
    last_scraped_at := some now
    name := pd.name.getD a.name
    current_company := match pd.current_company with
      | some v => some v
      | none => a.current_company
    current_designation := match pd.current_designation with
      | some v => some v
      | none => a.current_designation
    location := match pd.location with
      | some v => some v
      | none => a.location
    corporate_email := match pd.email with
      | some v => some v
      | none => a.corporate_email
    job_history := match pd.job_history with
      | some l => if l.isEmpty then a.job_history else l.map (mkJobRow a.id)
      | none => a.job_history
    education_history := match pd.education_history with
      | some l => if l.isEmpty then a.education_history else l.map (mkEduRow a.id)
      | none => a.education_history }

/-! ### The scraping job (`run_scraping_job`, job.py lines 29-145) -/

/-- The `stats` dictionary of `run_scraping_job` (timestamps omitted). -/
structure Stats where
  total_processed : Nat := 0
  successful : Nat := 0
  failed : Nat := 0
  skipped : Nat := 0
  pdfs_uploaded : Nat := 0
  errors : List String := []
deriving DecidableEq

/-- A row appended by `create_scraping_log`. -/
structure LogRecord where
  alumni_id : Nat
  status : String
  error_message : Option String := none
  pdf_stored : Bool := false
deriving DecidableEq

/-- Result of the per-candidate `try` block as seen by the statistics code:
`scrape_profile` either raises out of the block (e.g. the login failure at
linkedin_scraper.py line 145, re-raised as `Exception`) or returns an optional
profile dictionary. The database collaborators are assumed not to raise. -/
inductive CandidateAttempt
  | raises (msg : String)
  | scraped (r : Option ProfileData)

/-- Statistics update for one loop iteration (job.py lines 81-139):
`total_processed` is incremented first (line 82); a candidate with neither URL nor
LinkedIn id then only increments `skipped` (lines 84-86); otherwise a raised
exception increments `failed` and appends an error string (lines 129-131), a `None`
profile increments `failed` (line 119), and a profile increments `successful` and,
when the PDF was stored, `pdfs_uploaded` (lines 103-106). -/
def candStats (attempt : Alumni → CandidateAttempt) (pdfOk : Alumni → Bool)
    (st : Stats) (a : Alumni) : Stats :=
  let st1 := { st with total_processed := st.total_processed + 1 }
  if a.linkedin_url.isNone && a.linkedin_id.isNone then
    { st1 with skipped := st1.skipped + 1 }
  else
    match attempt a with
    | .raises msg =>
      { st1 with
        failed := st1.failed + 1
        errors := st1.errors ++ ["Alumni " ++ toString a.id ++ ": " ++ msg] }
    | .scraped none => { st1 with failed := st1.failed + 1 }
    | .scraped (some _) =>
      { st1 with
        successful := st1.successful + 1
        pdfs_uploaded := st1.pdfs_uploaded + (if pdfOk a then 1 else 0) }

/-- Scraping-log rows emitted for one loop iteration: none for a candidate skipped
for lack of identifiers; one "failed" row when the block raised (lines 132-139) or
the profile was `None` (lines 120-127); one "success" row otherwise (lines 110-117). -/
def candLogs (attempt : Alumni → CandidateAttempt) (pdfOk : Alumni → Bool)
    (a : Alumni) : List LogRecord :=
  if a.linkedin_url.isNone && a.linkedin_id.isNone then []
  else
    match attempt a with
    | .raises msg => [{ alumni_id := a.id, status := "failed", error_message := some msg }]
    | .scraped none =>
      [{ alumni_id := a.id, status := "failed",
         error_message := some "Failed to scrape profile data" }]
    | .scraped (some _) => [{ alumni_id := a.id, status := "success", pdf_stored := pdfOk a }]

/-- One iteration of the candidate loop, threading statistics and appended log rows. -/
def processCandidate (attempt : Alumni → CandidateAttempt) (pdfOk : Alumni → Bool)
    (acc : Stats × List LogRecord) (a : Alumni) : Stats × List LogRecord :=
  (candStats attempt pdfOk acc.1 a, acc.2 ++ candLogs attempt pdfOk a)

/-- Eligibility test of job.py line 69: `not a.last_scraped_at or a.last_scraped_at
< threshold_date`. -/
def eligibleB (threshold_date : Int) (a : Alumni) : Bool :=
  match a.last_scraped_at with
  | none => true
  | some t => t < threshold_date

/-- `run_scraping_job` (job.py lines 29-145). `dbResult` models `get_all_alumni`
(its `limit` and `batch` filtering already applied): `.error` is an exception at
job start, caught by the top-level `except` at line 141, which appends a single
"Job error: ..." entry and returns the otherwise untouched statistics. On the
normal path, candidates are filtered by staleness unless `force_update`; when
nothing is eligible, `skipped` is set to the number of candidates read and the
job returns at line 77; otherwise the loop runs over the eligible candidates. -/
def run_scraping_job (now update_threshold_days : Int) (force_update : Bool)
    (dbResult : Except String (List Alumni))
    (attempt : Alumni → CandidateAttempt) (pdfOk : Alumni → Bool) :
    Stats × List LogRecord :=
  match dbResult with
  | .error e => ({ errors := ["Job error: " ++ e] }, [])
  | .ok alumni_list =>
    let threshold_date := now - update_threshold_days
    let alumni_to_process :=
      if force_update then alumni_list else alumni_list.filter (eligibleB threshold_date)
    if alumni_to_process.isEmpty then
      ({ skipped := alumni_list.length }, [])
    else
      alumni_to_process.foldl (processCandidate attempt pdfOk) (({} : Stats), [])

/-- Exit-code logic of `main` (run.py lines 66-103): `sys.exit(1)` iff
`stats["failed"] > 0`. The `except` clause of `main` cannot fire on the job's
account because `run_scraping_job` catches every exception internally. -/
def mainExitCode (st : Stats) : Nat := if st.failed > 0 then 1 else 0

/-! ### Blob storage (`upload_pdf_bytes`, b2_client.py lines 121-169; storage/config.py) -/

/-- `MAX_FILE_SIZE_MB` (storage/config.py line 32). -/
def MAX_FILE_SIZE_MB : Nat := 10

/-- Network calls that `upload_pdf_bytes` can perform, in order. -/
inductive B2Effect
  | authorizeAccount
  | getBucketByName (bucket : String)
  | uploadBytes (size : Nat) (fileName : String)
deriving DecidableEq

structure UploadResult where
  file_name : String
deriving DecidableEq

/-- `_get_bucket` (lines 49-60): on first use it authorizes the account and resolves
the bucket by name; afterwards the cached bucket is reused with no network call. -/
def getBucketEffects (bucketCached : Bool) (bucketName : String) : List B2Effect :=
  if bucketCached then [] else [.authorizeAccount, .getBucketByName bucketName]

/-- The B2 object key built at line 150 ("linkedin_pdfs/" is `PDF_FOLDER` prefixing
from storage/config.py line 31). -/
def b2FileName (alumni_id : Nat) (linkedin_id : String) (timestamp : String) : String :=
  "linkedin_pdfs/" ++ toString alumni_id ++ "/" ++ linkedin_id ++ "_" ++ timestamp ++ ".pdf"

/-- `upload_pdf_bytes` (lines 121-169), returning the network effects performed and
the outcome. The size check computes `len(pdf_bytes) / (1024 * 1024)` with Python
float division; division by the power of two 2^20 is exact for any byte count
below 2^53, so the rational division below models it exactly. An oversized payload
raises `ValueError` before `_get_bucket` or `upload_bytes` is reached. -/
def upload_pdf_bytes (pdfLen : Nat) (alumni_id : Nat) (linkedin_id : String)
    (timestamp : String) (bucketCached : Bool) (bucketName : String) :
    List B2Effect × Except String UploadResult :=
  let size_mb : ℚ := (pdfLen : ℚ) / (1024 * 1024)
  if size_mb > (MAX_FILE_SIZE_MB : ℚ) then
    ([], .error "Content size exceeds limit")
  else
    let name := b2FileName alumni_id linkedin_id timestamp
    (getBucketEffects bucketCached bucketName ++ [.uploadBytes pdfLen name],
     .ok { file_name := name })

/-! ### Auxiliary definitions for stating the loop lemmas, and concrete inputs -/

/-- The scraping-log rows emitted by the candidate loop, candidate by candidate. -/
def logsOf (attempt : Alumni → CandidateAttempt) (pdfOk : Alumni → Bool) :
    List Alumni → List LogRecord
  | [] => []
  | a :: l => candLogs attempt pdfOk a ++ logsOf attempt pdfOk l

/-- An eligible candidate with neither a LinkedIn URL nor a LinkedIn id. -/
def noIdAlum : Alumni := { id := 1 }

/-- A candidate carrying one pre-existing job-history row. -/
def histAlum : Alumni where
  id := 7
  linkedin_url := some "https://www.linkedin.com/in/hist"
  job_history := [{ alumni_id := 7, company_name := "Initech", designation := some "Engineer",
                    location := none, start_date := some (2019, 6), end_date := none,
                    is_current := true }]

/-- A successful extraction whose job-history list is empty. -/
def emptyHistProfile : ProfileData := { name := some "H Ist", job_history := some [] }

/-- A candidate last refreshed inside the staleness threshold. -/
def staleAlum : Alumni where
  id := 1
  linkedin_url := some "https://www.linkedin.com/in/stale"
  last_scraped_at := some 100

/-- A candidate with a URL, used as the follow-up candidate after a failure. -/
def nextAlum : Alumni where
  id := 2
  linkedin_url := some "https://www.linkedin.com/in/next"

end AlumniSystem

namespace AlumniSystem

/-! ### Helper lemmas about the retry loop and the candidate loop -/

theorem scrapeLoop_all_throws (attempts : Nat → TryOutcome)
    (h : ∀ i, ∃ m, attempts i = TryOutcome.throws m) :
    ∀ k i : Nat, scrapeLoop attempts i k = none := by
  intro k
  induction k with
  | zero => intro i; rfl
  | succ n ih =>
    intro i
    obtain ⟨m, hm⟩ := h i
    unfold scrapeLoop
    rw [hm]
    exact ih (i + 1)

theorem scrape_profile_all_throws (retries : Nat) (attempts : Nat → TryOutcome)
    (h : ∀ i, ∃ m, attempts i = TryOutcome.throws m) :
    scrape_profile retries attempts = none :=
  scrapeLoop_all_throws attempts h retries 0

theorem candStats_total (ap : Alumni → CandidateAttempt) (pf : Alumni → Bool)
    (st : Stats) (a : Alumni) :
    (candStats ap pf st a).total_processed = st.total_processed + 1 := by
  simp only [candStats]
  split
  · rfl
  · split <;> rfl

theorem candStats_skipped (ap : Alumni → CandidateAttempt) (pf : Alumni → Bool)
    (st : Stats) (a : Alumni) :
    (candStats ap pf st a).skipped =
      st.skipped + (if a.linkedin_url.isNone && a.linkedin_id.isNone then 1 else 0) := by
  simp only [candStats]
  split
  · simp [*]
  · split <;> simp [*]

theorem candStats_inv (ap : Alumni → CandidateAttempt) (pf : Alumni → Bool)
    (st : Stats) (a : Alumni)
    (h : st.total_processed = st.successful + st.failed + st.skipped) :
    (candStats ap pf st a).total_processed =
      (candStats ap pf st a).successful + (candStats ap pf st a).failed +
        (candStats ap pf st a).skipped := by
  simp only [candStats]
  split
  · simp only []
    omega
  · split <;> simp only [] <;> omega

theorem foldl_total (ap : Alumni → CandidateAttempt) (pf : Alumni → Bool) :
    ∀ (l : List Alumni) (acc : Stats × List LogRecord),
      (l.foldl (processCandidate ap pf) acc).1.total_processed =
        acc.1.total_processed + l.length := by
  intro l
  induction l with
  | nil => intro acc; simp
  | cons a l ih =>
    intro acc
    rw [List.foldl_cons, ih]
    show (candStats ap pf acc.1 a).total_processed + l.length = _
    rw [candStats_total]
    simp
    omega

theorem foldl_skipped (ap : Alumni → CandidateAttempt) (pf : Alumni → Bool) :
    ∀ (l : List Alumni) (acc : Stats × List LogRecord),
      (l.foldl (processCandidate ap pf) acc).1.skipped =
        acc.1.skipped + l.countP (fun a => a.linkedin_url.isNone && a.linkedin_id.isNone) := by
  intro l
  induction l with
  | nil => intro acc; simp
  | cons a l ih =>
    intro acc
    rw [List.foldl_cons, ih]
    show (candStats ap pf acc.1 a).skipped + _ = _
    rw [candStats_skipped, List.countP_cons]
    cases hp : (a.linkedin_url.isNone && a.linkedin_id.isNone)
    · simp [hp]
    · simp [hp]
      omega

theorem foldl_inv (ap : Alumni → CandidateAttempt) (pf : Alumni → Bool) :
    ∀ (l : List Alumni) (acc : Stats × List LogRecord),
      acc.1.total_processed = acc.1.successful + acc.1.failed + acc.1.skipped →
      (l.foldl (processCandidate ap pf) acc).1.total_processed =
        (l.foldl (processCandidate ap pf) acc).1.successful +
          (l.foldl (processCandidate ap pf) acc).1.failed +
          (l.foldl (processCandidate ap pf) acc).1.skipped := by
  intro l
  induction l with
  | nil => intro acc h; simpa using h
  | cons a l ih =>
    intro acc h
    rw [List.foldl_cons]
    exact ih _ (candStats_inv ap pf acc.1 a h)

theorem foldl_logs (ap : Alumni → CandidateAttempt) (pf : Alumni → Bool) :
    ∀ (l : List Alumni) (acc : Stats × List LogRecord),
      (l.foldl (processCandidate ap pf) acc).2 = acc.2 ++ logsOf ap pf l := by
  intro l
  induction l with
  | nil => intro acc; simp [logsOf]
  | cons a l ih =>
    intro acc
    rw [List.foldl_cons, ih]
    show (acc.2 ++ candLogs ap pf a) ++ logsOf ap pf l = _
    rw [List.append_assoc]
    rfl

theorem logsOf_append (ap : Alumni → CandidateAttempt) (pf : Alumni → Bool) :
    ∀ l1 l2 : List Alumni,
      logsOf ap pf (l1 ++ l2) = logsOf ap pf l1 ++ logsOf ap pf l2 := by
  intro l1 l2
  induction l1 with
  | nil => simp [logsOf]
  | cons a l ih => simp [logsOf, ih]

theorem candLogs_filter_ne (ap : Alumni → CandidateAttempt) (pf : Alumni → Bool)
    (b : Alumni) (aid : Nat) (h : b.id ≠ aid) :
    (candLogs ap pf b).filter (fun x => x.alumni_id == aid) = [] := by
  have hb : (b.id == aid) = false := by simp [h]
  simp only [candLogs]
  split
  · rfl
  · split <;> simp [List.filter, hb]

theorem logsOf_filter_ne (ap : Alumni → CandidateAttempt) (pf : Alumni → Bool)
    (aid : Nat) :
    ∀ l : List Alumni, (∀ b ∈ l, b.id ≠ aid) →
      (logsOf ap pf l).filter (fun x => x.alumni_id == aid) = [] := by
  intro l
  induction l with
  | nil => intro _; rfl
  | cons b l ih =>
    intro h
    show ((candLogs ap pf b ++ logsOf ap pf l).filter _) = []
    rw [List.filter_append, candLogs_filter_ne ap pf b aid (h b (by simp)),
      ih (fun c hc => h c (by simp [hc]))]
    rfl

theorem containsSub_false_split :
    ∀ (l pat : List Char), containsSub l pat = false → splitOnFirst l pat = none := by
  intro l
  induction l with
  | nil => intro pat _; rfl
  | cons c rest ih =>
    intro pat h
    simp only [containsSub, Bool.or_eq_false_iff] at h
    simp only [splitOnFirst, h.1, Bool.false_eq_true, if_false]
    rw [ih pat h.2]

end AlumniSystem

namespace AlumniSystem

/-! ### Claim theorems -/

/-- C6: duration parsing. "Jan 2020 - Present" yields start = January 2020,
`is_current = true` and no end date; "Jan 2020 - Dec 2023" yields both dates with
`is_current` unset; the malformed "sometime recently" yields neither date (and the
model is a total function, mirroring that the source swallows every parse error);
month-name matching is case-insensitive in both the start and the end position. -/
theorem C6_duration_parsing :
    parse_dates "Jan 2020 - Present".data =
      { start_date := some (2020, 1), end_date := none, is_current := some true } ∧
    parse_dates "Jan 2020 - Dec 2023".data =
      { start_date := some (2020, 1), end_date := some (2023, 12), is_current := none } ∧
    parse_dates "sometime recently".data =
      { start_date := none, end_date := none, is_current := none } ∧
    parse_dates "jAN 2020 - pRESENT".data = parse_dates "Jan 2020 - Present".data ∧
    parse_dates "jan 2020 - dec 2023".data = parse_dates "Jan 2020 - Dec 2023".data := by
  decide

/-- C7: headline parsing. "Software Engineer at Acme Corp" splits at the first
literal " at " into title "Software Engineer" and organization "Acme Corp"; any
headline having no " at " substring leaves both fields unset. -/
theorem C7_headline_parsing :
    parseHeadline "Software Engineer at Acme Corp".data =
      some ("Software Engineer".data, "Acme Corp".data) ∧
    ∀ h : List Char, containsSub h atSep = false → parseHeadline h = none := by
  constructor
  · decide
  · intro h hc
    unfold parseHeadline
    split
    · rw [containsSub_false_split h atSep hc]
    · rfl

/-- C7 witness: a headline without the literal " at " (here one whose lowercasing
does contain it) leaves both fields unset. -/
theorem C7_headline_witness :
    containsSub "Engineer AT Acme".data atSep = false ∧
    parseHeadline "Engineer AT Acme".data = none :=
  ⟨by decide, C7_headline_parsing.2 _ (by decide)⟩

/-- C4 counterexample: the claim says the verification-required outcome is surfaced
to the caller distinctly from a generic login failure, but a post-login URL on the
checkpoint page and a generic failed login produce the identical caller-visible
result `False`: the `raise` at linkedin_scraper.py line 125 is caught by the same
method's `except` at line 129. -/
theorem C4_counterexample :
    (login false true true (.lands "https://www.linkedin.com/checkpoint/challenge")).1 =
      LoginOutcome.retFalse ∧
    (login false true true (.lands "https://www.linkedin.com/login")).1 =
      LoginOutcome.retFalse := by
  decide

/-- C4 amended: `login` surfaces only `True`/`False` to the caller (besides the
pre-flight credentials `ValueError`); on a checkpoint URL it returns `False`,
exactly like a generic failure, and the verification-required condition is
distinguishable only in the printed diagnostic message. -/
theorem C4_amended (url : String)
    (hc : containsSub url.data "checkpoint".data = true)
    (hf : containsSub url.data "feed".data = false)
    (hm : containsSub url.data "mynetwork".data = false) :
    login false true true (.lands url) =
      (LoginOutcome.retFalse, ["Login failed: LinkedIn security verification required"]) := by
  simp [login, hc, hf, hm]

/-- C4 witness: the amended statement at the concrete checkpoint URL. -/
theorem C4_amended_witness :
    containsSub "https://www.linkedin.com/checkpoint/challenge".data "checkpoint".data = true ∧
    login false true true (.lands "https://www.linkedin.com/checkpoint/challenge") =
      (LoginOutcome.retFalse, ["Login failed: LinkedIn security verification required"]) :=
  ⟨by decide, C4_amended _ (by decide) (by decide) (by decide)⟩

end AlumniSystem

namespace AlumniSystem

/-- C1 counterexample: one eligible candidate with neither URL nor LinkedIn id is
counted as skipped AND in `total_processed` (job.py line 82 increments before the
skip at lines 84-86), so `total_processed = successful + failed` fails. -/
theorem C1_counterexample :
    ¬ ((run_scraping_job 0 180 false (Except.ok [noIdAlum]) (fun _ => .scraped none)
          (fun _ => false)).1.total_processed =
        (run_scraping_job 0 180 false (Except.ok [noIdAlum]) (fun _ => .scraped none)
          (fun _ => false)).1.successful +
        (run_scraping_job 0 180 false (Except.ok [noIdAlum]) (fun _ => .scraped none)
          (fun _ => false)).1.failed) := by
  decide

/-- C1 amended: for every run, `total_processed = successful + failed + skipped`
(candidates skipped inside the loop are included in `total_processed`), except
that when no candidate is attempted at all (early return or top-level error),
`total_processed`, `successful` and `failed` are all zero while `skipped` may
hold the count of candidates read. -/
theorem C1_amended (now thr : Int) (force : Bool) (dbr : Except String (List Alumni))
    (ap : Alumni → CandidateAttempt) (pf : Alumni → Bool) :
    (run_scraping_job now thr force dbr ap pf).1.total_processed =
        (run_scraping_job now thr force dbr ap pf).1.successful +
        (run_scraping_job now thr force dbr ap pf).1.failed +
        (run_scraping_job now thr force dbr ap pf).1.skipped ∨
      ((run_scraping_job now thr force dbr ap pf).1.total_processed = 0 ∧
       (run_scraping_job now thr force dbr ap pf).1.successful = 0 ∧
       (run_scraping_job now thr force dbr ap pf).1.failed = 0) := by
  cases dbr with
  | error e => left; rfl
  | ok l =>
    simp only [run_scraping_job]
    by_cases he : (if force then l else l.filter (eligibleB (now - thr))).isEmpty = true
    · rw [if_pos he]
      right
      exact ⟨rfl, rfl, rfl⟩
    · rw [if_neg he]
      left
      exact foldl_inv ap pf _ _ rfl

/-- C2 counterexample: a successful extraction with an empty job-history list does
NOT clear the candidate's pre-existing history — the guard at job.py line 180
(`... and profile_data["job_history"]`) is false for an empty list, so the old
rows survive. -/
theorem C2_counterexample :
    (update_alumni_from_profile 5 histAlum emptyHistProfile).job_history =
      histAlum.job_history ∧
    histAlum.job_history ≠ [] := by
  decide

/-- C2 amended: history lists are never partially merged — each is either left
untouched or wholly replaced by the extracted list — but an extraction whose
job-history (or education-history) list is empty leaves the pre-existing rows
untouched rather than clearing them; only a non-empty list replaces them. -/
theorem C2_amended (now : Int) (a : Alumni) (pd : ProfileData) :
    ((update_alumni_from_profile now a pd).job_history = a.job_history ∨
      ∃ l, pd.job_history = some l ∧ l ≠ [] ∧
        (update_alumni_from_profile now a pd).job_history = l.map (mkJobRow a.id)) ∧
    (pd.job_history = some [] →
      (update_alumni_from_profile now a pd).job_history = a.job_history) ∧
    ((update_alumni_from_profile now a pd).education_history = a.education_history ∨
      ∃ l, pd.education_history = some l ∧ l ≠ [] ∧
        (update_alumni_from_profile now a pd).education_history = l.map (mkEduRow a.id)) ∧
    (pd.education_history = some [] →
      (update_alumni_from_profile now a pd).education_history = a.education_history) := by
  refine ⟨?_, ?_, ?_, ?_⟩
  · cases hjh : pd.job_history with
    | none => left; simp [update_alumni_from_profile, hjh]
    | some l =>
      cases l with
      | nil => left; simp [update_alumni_from_profile, hjh]
      | cons x xs =>
        right
        exact ⟨x :: xs, rfl, by simp, by simp [update_alumni_from_profile, hjh]⟩
  · intro h
    simp [update_alumni_from_profile, h]
  · cases heh : pd.education_history with
    | none => left; simp [update_alumni_from_profile, heh]
    | some l =>
      cases l with
      | nil => left; simp [update_alumni_from_profile, heh]
      | cons x xs =>
        right
        exact ⟨x :: xs, rfl, by simp, by simp [update_alumni_from_profile, heh]⟩
  · intro h
    simp [update_alumni_from_profile, h]

/-- C2 witness for the amended statement: the empty-list extraction leaves the
concrete candidate's history untouched. -/
theorem C2_amended_witness :
    emptyHistProfile.job_history = some [] ∧
    (update_alumni_from_profile 5 histAlum emptyHistProfile).job_history =
      histAlum.job_history :=
  ⟨by decide, (C2_amended 5 histAlum emptyHistProfile).2.1 (by decide)⟩

/-- C3 counterexample: a record-store failure at job start is caught by the
top-level `except` of `run_scraping_job` (job.py line 141): the run does report a
single top-level error entry, but `failed` stays 0, so `main` (run.py line 98)
exits with code 0, not non-zero as claimed. -/
theorem C3_counterexample :
    (run_scraping_job 0 180 false (Except.error "database connection refused")
        (fun _ => .scraped none) (fun _ => false)).1.errors.length = 1 ∧
    mainExitCode (run_scraping_job 0 180 false (Except.error "database connection refused")
        (fun _ => .scraped none) (fun _ => false)).1 = 0 := by
  decide

/-- C3 amended: a fatal top-level error produces exactly one "Job error: ..."
entry, but the process then exits with code 0 — the exception is swallowed inside
the job, and on every path the exit code is non-zero iff at least one candidate
attempt failed. -/
theorem C3_amended (now thr : Int) (force : Bool) (msg : String)
    (ap : Alumni → CandidateAttempt) (pf : Alumni → Bool) :
    (run_scraping_job now thr force (Except.error msg) ap pf).1.errors =
      ["Job error: " ++ msg] ∧
    mainExitCode (run_scraping_job now thr force (Except.error msg) ap pf).1 = 0 ∧
    ∀ dbr : Except String (List Alumni),
      (mainExitCode (run_scraping_job now thr force dbr ap pf).1 ≠ 0 ↔
        0 < (run_scraping_job now thr force dbr ap pf).1.failed) := by
  refine ⟨rfl, rfl, ?_⟩
  intro dbr
  generalize (run_scraping_job now thr force dbr ap pf).1 = st
  unfold mainExitCode
  by_cases h : 0 < st.failed
  · simp [h]
  · simp [h]

end AlumniSystem

namespace AlumniSystem

/-- C5: a candidate whose extraction throws on every retry attempt gets exactly
one scraping-log record, with status "failed" (not one per retry) — the retry
loop of `scrape_profile` swallows each attempt's exception and returns `None`
after the last one, and the job then writes a single "failed" log row — and the
failure does not stop the loop: every eligible candidate is still counted in
`total_processed`. -/
theorem C5_single_failure_record (retries : Nat) (attempts : Nat → TryOutcome)
    (hthrow : ∀ i, ∃ m, attempts i = TryOutcome.throws m)
    (now thr : Int) (l1 l2 : List Alumni) (a : Alumni)
    (hid : (a.linkedin_url.isNone && a.linkedin_id.isNone) = false)
    (ap : Alumni → CandidateAttempt) (pf : Alumni → Bool)
    (ha : ap a = .scraped (scrape_profile retries attempts))
    (hdistinct : ∀ b ∈ l1 ++ l2, b.id ≠ a.id) :
    (run_scraping_job now thr true (Except.ok (l1 ++ a :: l2)) ap pf).2.filter
        (fun x => x.alumni_id == a.id) =
      [{ alumni_id := a.id, status := "failed",
         error_message := some "Failed to scrape profile data", pdf_stored := false }] ∧
    (run_scraping_job now thr true (Except.ok (l1 ++ a :: l2)) ap pf).1.total_processed =
      l1.length + 1 + l2.length := by
  have ha' : ap a = .scraped none := by
    rw [ha, scrape_profile_all_throws retries attempts hthrow]
  have hne : (l1 ++ a :: l2).isEmpty = false := by
    cases l1 <;> rfl
  have hrun : run_scraping_job now thr true (Except.ok (l1 ++ a :: l2)) ap pf =
      (l1 ++ a :: l2).foldl (processCandidate ap pf) (({} : Stats), []) := by
    simp [run_scraping_job, hne]
  have hcand : candLogs ap pf a =
      [{ alumni_id := a.id, status := "failed",
         error_message := some "Failed to scrape profile data", pdf_stored := false }] := by
    simp only [candLogs, hid, ha']
    rfl
  constructor
  · rw [hrun, foldl_logs, logsOf_append]
    show ((([] : List LogRecord) ++ (logsOf ap pf l1 ++ logsOf ap pf (a :: l2))).filter _) = _
    rw [List.nil_append, List.filter_append]
    rw [logsOf_filter_ne ap pf a.id l1 (fun b hb => hdistinct b (by simp [hb]))]
    show (([] : List LogRecord) ++ ((candLogs ap pf a ++ logsOf ap pf l2).filter _)) = _
    rw [List.nil_append, List.filter_append]
    rw [logsOf_filter_ne ap pf a.id l2 (fun b hb => hdistinct b (by simp [hb]))]
    rw [hcand]
    simp [List.filter]
  · rw [hrun, foldl_total]
    simp
    omega

end AlumniSystem

namespace AlumniSystem

/-- C5 witness: with the default three retries all throwing, the candidate gets one
"failed" log record and the next candidate is still processed. -/
theorem C5_single_failure_record_witness :
    (staleAlum.linkedin_url.isNone && staleAlum.linkedin_id.isNone) = false ∧
    (∀ b ∈ ([] : List Alumni) ++ [nextAlum], b.id ≠ staleAlum.id) ∧
    ((run_scraping_job 0 180 true (Except.ok (([] : List Alumni) ++ staleAlum :: [nextAlum]))
          (fun _ => CandidateAttempt.scraped
            (scrape_profile 3 (fun _ => TryOutcome.throws "nav timeout")))
          (fun _ => false)).2.filter (fun x => x.alumni_id == staleAlum.id) =
        [{ alumni_id := staleAlum.id, status := "failed",
           error_message := some "Failed to scrape profile data", pdf_stored := false }] ∧
      (run_scraping_job 0 180 true (Except.ok (([] : List Alumni) ++ staleAlum :: [nextAlum]))
          (fun _ => CandidateAttempt.scraped
            (scrape_profile 3 (fun _ => TryOutcome.throws "nav timeout")))
          (fun _ => false)).1.total_processed =
        ([] : List Alumni).length + 1 + [nextAlum].length) :=
  ⟨by decide, by decide,
    C5_single_failure_record 3 (fun _ => TryOutcome.throws "nav timeout")
      (fun _ => ⟨"nav timeout", rfl⟩) 0 180 [] [nextAlum] staleAlum (by decide)
      (fun _ => CandidateAttempt.scraped
        (scrape_profile 3 (fun _ => TryOutcome.throws "nav timeout")))
      (fun _ => false) rfl (by decide)⟩

/-- C8: every payload strictly larger than 10 MiB is rejected with the size-limit
error before any network call: no account authorization, no bucket resolution, no
upload — the effect list is empty and the outcome is the `ValueError`. -/
theorem C8_oversize_rejected (n aid : Nat) (lid ts : String) (cached : Bool)
    (bucket : String) (hn : 10 * 1024 * 1024 < n) :
    upload_pdf_bytes n aid lid ts cached bucket =
      ([], Except.error "Content size exceeds limit") := by
  have hq : (MAX_FILE_SIZE_MB : ℚ) < (n : ℚ) / (1024 * 1024) := by
    rw [lt_div_iff₀ (by norm_num : (0 : ℚ) < 1024 * 1024)]
    have hcast : ((10 * 1024 * 1024 : ℕ) : ℚ) < (n : ℚ) := by exact_mod_cast hn
    calc (MAX_FILE_SIZE_MB : ℚ) * (1024 * 1024) = ((10 * 1024 * 1024 : ℕ) : ℚ) := by
          norm_num [MAX_FILE_SIZE_MB]
      _ < (n : ℚ) := hcast
  simp only [upload_pdf_bytes]
  rw [if_pos hq]

/-- C8 witness: one byte over the limit is rejected with no effects. -/
theorem C8_oversize_rejected_witness :
    10 * 1024 * 1024 < 10485761 ∧
    upload_pdf_bytes 10485761 3 "cand" "20240101_000000" false "alumni-pdfs" =
      ([], Except.error "Content size exceeds limit") :=
  ⟨by decide,
    C8_oversize_rejected 10485761 3 "cand" "20240101_000000" false "alumni-pdfs" (by decide)⟩

/-- C9: a payload of exactly 10 * 1024 * 1024 bytes passes the strict greater-than
size check and is uploaded — the ceiling is inclusive at the boundary. -/
theorem C9_exact_limit_accepted :
    upload_pdf_bytes (10 * 1024 * 1024) 5 "cand" "20240101_000000" false "alumni-pdfs" =
      ([B2Effect.authorizeAccount, B2Effect.getBucketByName "alumni-pdfs",
        B2Effect.uploadBytes (10 * 1024 * 1024) (b2FileName 5 "cand" "20240101_000000")],
       Except.ok { file_name := b2FileName 5 "cand" "20240101_000000" }) := by
  have hq : ¬ (((10 * 1024 * 1024 : ℕ) : ℚ) / (1024 * 1024) > (MAX_FILE_SIZE_MB : ℚ)) := by
    norm_num [MAX_FILE_SIZE_MB]
  simp only [upload_pdf_bytes]
  rw [if_neg hq]
  rfl

/-- C10: when `force_update` is false and every candidate read is ineligible, the
job returns immediately with `skipped` equal to the number of candidates read and
all other counters zero (and no log rows); when at least one candidate is
eligible, the run is identical to a forced run over just the eligible candidates
(the filtered-out candidates appear in no counter), and `skipped` counts exactly
the eligible candidates lacking both a profile URL and a LinkedIn id. -/
theorem C10_filter_semantics (now thr : Int) (l : List Alumni)
    (ap : Alumni → CandidateAttempt) (pf : Alumni → Bool) :
    ((∀ a ∈ l, eligibleB (now - thr) a = false) →
      run_scraping_job now thr false (Except.ok l) ap pf =
        ({ skipped := l.length }, [])) ∧
    ((l.filter (eligibleB (now - thr))).isEmpty = false →
      run_scraping_job now thr false (Except.ok l) ap pf =
          run_scraping_job now thr true (Except.ok (l.filter (eligibleB (now - thr)))) ap pf ∧
        (run_scraping_job now thr false (Except.ok l) ap pf).1.skipped =
          (l.filter (eligibleB (now - thr))).countP
            (fun a => a.linkedin_url.isNone && a.linkedin_id.isNone)) := by
  constructor
  · intro h
    have hfe : l.filter (eligibleB (now - thr)) = [] := by
      rw [List.filter_eq_nil_iff]
      intro a ha
      simp [h a ha]
    simp [run_scraping_job, hfe]
  · intro hne
    have h1 : run_scraping_job now thr false (Except.ok l) ap pf =
        (l.filter (eligibleB (now - thr))).foldl (processCandidate ap pf)
          (({} : Stats), []) := by
      simp [run_scraping_job, hne]
    have h2 : run_scraping_job now thr true
          (Except.ok (l.filter (eligibleB (now - thr)))) ap pf =
        (l.filter (eligibleB (now - thr))).foldl (processCandidate ap pf)
          (({} : Stats), []) := by
      simp [run_scraping_job, hne]
    refine ⟨h1.trans h2.symm, ?_⟩
    rw [h1, foldl_skipped]
    simp

/-- C10 witness: a run where the single candidate is fresh returns immediately with
`skipped = 1`; a run with one fresh and one eligible identifier-less candidate
equals the forced run over the filtered list, with `skipped` counting only the
identifier-less eligible candidate. -/
theorem C10_filter_semantics_witness :
    ((∀ a ∈ [staleAlum], eligibleB (200 - 180) a = false) ∧
      run_scraping_job 200 180 false (Except.ok [staleAlum])
          (fun _ => CandidateAttempt.scraped none) (fun _ => false) =
        ({ skipped := 1 }, [])) ∧
    (([staleAlum, noIdAlum].filter (eligibleB (200 - 180))).isEmpty = false ∧
      (run_scraping_job 200 180 false (Except.ok [staleAlum, noIdAlum])
            (fun _ => CandidateAttempt.scraped none) (fun _ => false) =
          run_scraping_job 200 180 true
            (Except.ok ([staleAlum, noIdAlum].filter (eligibleB (200 - 180))))
            (fun _ => CandidateAttempt.scraped none) (fun _ => false) ∧
        (run_scraping_job 200 180 false (Except.ok [staleAlum, noIdAlum])
              (fun _ => CandidateAttempt.scraped none) (fun _ => false)).1.skipped =
          ([staleAlum, noIdAlum].filter (eligibleB (200 - 180))).countP
            (fun a => a.linkedin_url.isNone && a.linkedin_id.isNone))) :=
  ⟨⟨by decide,
      (C10_filter_semantics 200 180 [staleAlum]
        (fun _ => CandidateAttempt.scraped none) (fun _ => false)).1 (by decide)⟩,
   ⟨by decide,
      (C10_filter_semantics 200 180 [staleAlum, noIdAlum]
        (fun _ => CandidateAttempt.scraped none) (fun _ => false)).2 (by decide)⟩⟩

end AlumniSystem
